import Mathlib

/-!
Shallow embedding of `src/spirv-cross-sys/native/wrapper.h` from
SnowflakePowered/spirv-cross2.

The header declares eight C adapter functions over opaque SPIRV-Cross
handles.  Their bodies are not part of this repository (only the
declarations are), so each adapter is modelled from the spec as a
transparent pass-through to the wrapped library's native accessor.

Modelling choices:
  * Opaque handles (`spvc_set`, `spvc_compiler`, `spvc_constant`,
    `spvc_type`, `spvc_variable_id`) are `Nat` identifiers.
  * Caller memory is word-addressed (`Nat → Nat`); a C output pointer
    becomes an address into that memory.  The 32-bit words stored by the
    library are modelled as `Nat` (the adapter layer never does
    arithmetic on them, so no wrap-around can arise in this layer).
  * `spvc_result` is modelled as `Int` (`SPVC_SUCCESS = 0`, errors are
    the library's negative codes); the layer only forwards it.
  * The wrapped library's observable state is a `LibState` record whose
    fields are exactly the native accessors the spec says each adapter
    forwards to.  Every adapter takes and returns the `LibState`, so
    that "this layer changes no library state and neither creates nor
    destroys handles" is a provable statement, not a typing artifact.
-/

namespace SpvcRs

/-- Word-addressed caller memory: a C output pointer is an address. -/
def Mem : Type := Nat → Nat

/-- Store one value at one address. -/
def write (m : Mem) (a v : Nat) : Mem := fun x => if x = a then v else m x

/-- Store a list of values at consecutive addresses starting at `a`
(the buffer-filling loop of `spvc_rs_expose_set`). -/
def writeList (m : Mem) (a : Nat) : List Nat → Mem
  | [] => m
  | v :: vs => writeList (write m a v) (a + 1) vs

/-- Modelled from the spec: the wrapped SPIRV-Cross library, whose
implementation is not in this repository.  Each field is one native
accessor the spec names: the 32-bit values contained in a set handle,
the scalar flag / vector size / matrix column size of a constant
handle, the (result code, type id) a compiler yields for a variable id,
the pointer / forward-pointer classification of a type handle, and the
execution-model enum value of a compiler handle. -/
structure LibState where
  set_contents : Nat → List Nat
  constant_is_scalar : Nat → Bool
  constant_get_vecsize : Nat → Nat
  constant_get_matrix_colsize : Nat → Nat
  get_type_from_variable : Nat → Nat → Int × Nat
  type_is_pointer : Nat → Bool
  type_is_forward_pointer : Nat → Bool
  get_execution_model : Nat → Nat

/-- Modelled from the spec: `spvc_rs_expose_set` (implementation absent
from the repository).  "Reads a `set`-like handle and copies its
contained 32-bit values into a caller-supplied buffer, writing the
count to an output length pointer."  `out` and `lp` are the addresses
of the caller's buffer and length cell. -/
def spvc_rs_expose_set (st : LibState) (m : Mem) (s out lp : Nat) :
    LibState × Mem :=
  (st, write (writeList m out (st.set_contents s)) lp
    (st.set_contents s).length)

/-- Modelled from the spec: `spvc_rs_constant_is_scalar` forwards the
wrapped library's scalar-shape flag for the constant handle. -/
def spvc_rs_constant_is_scalar (st : LibState) (m : Mem) (c : Nat) :
    LibState × Mem × Bool :=
  (st, m, st.constant_is_scalar c)

/-- Modelled from the spec: `spvc_rs_constant_get_vecsize` forwards the
wrapped library's vector size for the constant handle. -/
def spvc_rs_constant_get_vecsize (st : LibState) (m : Mem) (c : Nat) :
    LibState × Mem × Nat :=
  (st, m, st.constant_get_vecsize c)

/-- Modelled from the spec: `spvc_rs_constant_get_matrix_colsize`
forwards the wrapped library's matrix column size for the constant
handle. -/
def spvc_rs_constant_get_matrix_colsize (st : LibState) (m : Mem) (c : Nat) :
    LibState × Mem × Nat :=
  (st, m, st.constant_get_matrix_colsize c)

/-- Modelled from the spec: `spvc_rs_compiler_variable_get_type`
"resolves a `variable_id` to a `type_id` within a `compiler` handle's
context": it writes the library's type id through `out` and returns the
library's `spvc_result` unchanged. -/
def spvc_rs_compiler_variable_get_type (st : LibState) (m : Mem)
    (compiler vid out : Nat) : LibState × Mem × Int :=
  (st, write m out (st.get_type_from_variable compiler vid).2,
    (st.get_type_from_variable compiler vid).1)

/-- Modelled from the spec: `spvc_rs_type_is_pointer` forwards the
wrapped library's pointer classification of the type handle. -/
def spvc_rs_type_is_pointer (st : LibState) (m : Mem) (t : Nat) :
    LibState × Mem × Bool :=
  (st, m, st.type_is_pointer t)

/-- Modelled from the spec: `spvc_rs_type_is_forward_pointer` forwards
the wrapped library's forward-pointer classification of the type
handle. -/
def spvc_rs_type_is_forward_pointer (st : LibState) (m : Mem) (t : Nat) :
    LibState × Mem × Bool :=
  (st, m, st.type_is_forward_pointer t)

/-- Modelled from the spec: `spvc_rs_compiler_get_execution_model_indirect`
"copies an execution-model enum value for a `compiler` handle into
caller-provided storage".  The C function returns `void`, so the model
produces no result value at all: there is no error channel. -/
def spvc_rs_compiler_get_execution_model_indirect (st : LibState) (m : Mem)
    (compiler out : Nat) : LibState × Mem :=
  (st, write m out (st.get_execution_model compiler))

/-- A concrete wrapped-library state used by the witness theorems. -/
def demoState : LibState where
  set_contents := fun s => if s = 7 then [3, 1, 4] else []
  constant_is_scalar := fun c => c = 2
  constant_get_vecsize := fun _ => 4
  constant_get_matrix_colsize := fun _ => 3
  get_type_from_variable := fun _ vid => (0, vid + 100)
  type_is_pointer := fun t => t = 5
  type_is_forward_pointer := fun _ => false
  get_execution_model := fun _ => 4

/-- A concrete all-zero caller memory used by the witness theorems. -/
def zeroMem : Mem := fun _ => 0

theorem write_self (m : Mem) (a v : Nat) : write m a v a = v := by
  simp [write]

theorem write_other (m : Mem) (a v x : Nat) (h : x ≠ a) :
    write m a v x = m x := by
  simp [write, h]

theorem writeList_eq_outside (l : List Nat) (m : Mem) (a x : Nat)
    (h : x < a ∨ a + l.length ≤ x) : writeList m a l x = m x := by
  induction l generalizing m a with
  | nil => rfl
  | cons v vs ih =>
    simp only [List.length_cons] at h
    simp only [writeList]
    rw [ih]
    · exact write_other m a v x (by omega)
    · omega

theorem writeList_get (l : List Nat) (m : Mem) (a i : Nat)
    (h : i < l.length) : writeList m a l (a + i) = l.get ⟨i, h⟩ := by
  induction l generalizing m a i with
  | nil => simp at h
  | cons v vs ih =>
    match i with
    | 0 =>
      simp only [writeList, Nat.add_zero]
      rw [writeList_eq_outside vs (write m a v) (a + 1) a (by omega)]
      exact write_self m a v
    | Nat.succ j =>
      simp only [writeList]
      have hj : j < vs.length := by
        simp only [List.length_cons] at h
        omega
      have := ih (write m a v) (a + 1) j hj
      rw [show a + (j + 1) = (a + 1) + j by omega]
      exact this

/-- C2: for every valid set handle, `spvc_rs_expose_set` copies each
32-bit value contained in the set into the caller-supplied buffer `out`
(value `i` lands at address `out + i`), and writes the number of values
copied to the output length pointer `lp`.  The hypothesis is the C
aliasing assumption that the length cell does not overlap the buffer. -/
theorem expose_set_copies_values_and_count (st : LibState) (m : Mem)
    (s out lp : Nat)
    (hdisj : ∀ i, i < (st.set_contents s).length → out + i ≠ lp) :
    (∀ i, (h : i < (st.set_contents s).length) →
      (spvc_rs_expose_set st m s out lp).2 (out + i) =
        (st.set_contents s).get ⟨i, h⟩) ∧
    (spvc_rs_expose_set st m s out lp).2 lp =
      (st.set_contents s).length := by
  constructor
  · intro i h
    simp only [spvc_rs_expose_set]
    rw [write_other _ _ _ _ (hdisj i h)]
    exact writeList_get _ m out i h
  · simp only [spvc_rs_expose_set]
    exact write_self _ lp _

/-- Witness for C2 at a concrete state: set handle 7 holds `[3, 1, 4]`;
with the buffer at address 10 and the length cell at address 20, the
call stores 1 at address 11 and the count 3 at address 20. -/
theorem expose_set_copies_values_and_count_witness :
    (spvc_rs_expose_set demoState zeroMem 7 10 20).2 (10 + 1) = 1 ∧
    (spvc_rs_expose_set demoState zeroMem 7 10 20).2 20 = 3 := by
  have hlen : (demoState.set_contents 7).length = 3 := rfl
  have h := expose_set_copies_values_and_count demoState zeroMem 7 10 20
    (by intro i hi; rw [hlen] at hi; omega)
  refine ⟨?_, h.2⟩
  have := h.1 1 (by rw [hlen]; omega)
  simpa [demoState] using this

/-- C3: for every compiler handle and variable id,
`spvc_rs_compiler_variable_get_type` writes the type id the wrapped
library resolves for that variable through `out`, and returns exactly
the `spvc_result` the wrapped library signals for the lookup. -/
theorem compiler_variable_get_type_resolves (st : LibState) (m : Mem)
    (compiler vid out : Nat) :
    (spvc_rs_compiler_variable_get_type st m compiler vid out).2.1 out =
      (st.get_type_from_variable compiler vid).2 ∧
    (spvc_rs_compiler_variable_get_type st m compiler vid out).2.2 =
      (st.get_type_from_variable compiler vid).1 := by
  exact ⟨write_self _ out _, rfl⟩

/-- C4: for every constant handle, `spvc_rs_constant_is_scalar`
returns the wrapped library's scalar-shape flag,
`spvc_rs_constant_get_vecsize` returns its vector size, and
`spvc_rs_constant_get_matrix_colsize` returns its matrix column
size. -/
theorem constant_shape_accessors_forward (st : LibState) (m : Mem)
    (c : Nat) :
    (spvc_rs_constant_is_scalar st m c).2.2 = st.constant_is_scalar c ∧
    (spvc_rs_constant_get_vecsize st m c).2.2 =
      st.constant_get_vecsize c ∧
    (spvc_rs_constant_get_matrix_colsize st m c).2.2 =
      st.constant_get_matrix_colsize c :=
  ⟨rfl, rfl, rfl⟩

/-- C5: for every type handle, `spvc_rs_type_is_pointer` returns true
iff the wrapped library classifies the type as a pointer, and
`spvc_rs_type_is_forward_pointer` returns true iff the wrapped library
classifies it as a forward pointer. -/
theorem type_classification_forwards (st : LibState) (m : Mem)
    (t : Nat) :
    ((spvc_rs_type_is_pointer st m t).2.2 = true ↔
      st.type_is_pointer t = true) ∧
    ((spvc_rs_type_is_forward_pointer st m t).2.2 = true ↔
      st.type_is_forward_pointer t = true) :=
  ⟨Iff.rfl, Iff.rfl⟩

/-- C6: for every compiler handle,
`spvc_rs_compiler_get_execution_model_indirect` copies that compiler's
execution-model enum value into the caller-provided storage at `out`. -/
theorem get_execution_model_indirect_copies (st : LibState) (m : Mem)
    (compiler out : Nat) :
    (spvc_rs_compiler_get_execution_model_indirect st m compiler out).2
      out = st.get_execution_model compiler :=
  write_self _ out _

/-- C1: refinement of the wrapped library — for every adapter declared
in `wrapper.h` and every set of handles, the value the adapter returns
(or writes through its output pointer) is exactly the value the wrapped
library's corresponding native accessor (the `LibState` field) yields
directly, including the `spvc_result` code and the boolean flags, with
no new error classification introduced by this layer.  The hypothesis
is the C aliasing assumption for `spvc_rs_expose_set`'s two output
pointers. -/
theorem adapters_refine_native_accessors (st : LibState) (m : Mem)
    (s c t compiler vid outb lp outv oute : Nat)
    (hdisj : ∀ i, i < (st.set_contents s).length → outb + i ≠ lp) :
    (∀ i, (h : i < (st.set_contents s).length) →
      (spvc_rs_expose_set st m s outb lp).2 (outb + i) =
        (st.set_contents s).get ⟨i, h⟩) ∧
    (spvc_rs_expose_set st m s outb lp).2 lp =
      (st.set_contents s).length ∧
    (spvc_rs_constant_is_scalar st m c).2.2 = st.constant_is_scalar c ∧
    (spvc_rs_constant_get_vecsize st m c).2.2 =
      st.constant_get_vecsize c ∧
    (spvc_rs_constant_get_matrix_colsize st m c).2.2 =
      st.constant_get_matrix_colsize c ∧
    (spvc_rs_compiler_variable_get_type st m compiler vid outv).2.1
      outv = (st.get_type_from_variable compiler vid).2 ∧
    (spvc_rs_compiler_variable_get_type st m compiler vid outv).2.2 =
      (st.get_type_from_variable compiler vid).1 ∧
    (spvc_rs_type_is_pointer st m t).2.2 = st.type_is_pointer t ∧
    (spvc_rs_type_is_forward_pointer st m t).2.2 =
      st.type_is_forward_pointer t ∧
    (spvc_rs_compiler_get_execution_model_indirect st m compiler oute).2
      oute = st.get_execution_model compiler := by
  refine ⟨?_, ?_, rfl, rfl, rfl, write_self _ outv _, rfl, rfl, rfl,
    write_self _ oute _⟩
  · intro i h
    simp only [spvc_rs_expose_set]
    rw [write_other _ _ _ _ (hdisj i h)]
    exact writeList_get _ m outb i h
  · simp only [spvc_rs_expose_set]
    exact write_self _ lp _

/-- Witness for C1 at a concrete state: one consequence of each
conjunct evaluated at explicit handles and addresses. -/
theorem adapters_refine_native_accessors_witness :
    (spvc_rs_expose_set demoState zeroMem 7 10 20).2 (10 + 0) = 3 ∧
    (spvc_rs_expose_set demoState zeroMem 7 10 20).2 20 = 3 ∧
    (spvc_rs_constant_is_scalar demoState zeroMem 2).2.2 = true ∧
    (spvc_rs_constant_get_vecsize demoState zeroMem 2).2.2 = 4 ∧
    (spvc_rs_constant_get_matrix_colsize demoState zeroMem 2).2.2 = 3 ∧
    (spvc_rs_compiler_variable_get_type demoState zeroMem 1 9 30).2.1
      30 = 109 ∧
    (spvc_rs_compiler_variable_get_type demoState zeroMem 1 9 30).2.2 =
      0 ∧
    (spvc_rs_type_is_pointer demoState zeroMem 5).2.2 = true ∧
    (spvc_rs_type_is_forward_pointer demoState zeroMem 5).2.2 =
      false ∧
    (spvc_rs_compiler_get_execution_model_indirect demoState zeroMem 1
      40).2 40 = 4 := by
  have hlen : (demoState.set_contents 7).length = 3 := rfl
  have h := adapters_refine_native_accessors demoState zeroMem
    7 2 5 1 9 10 20 30 40
    (by intro i hi; rw [hlen] at hi; omega)
  obtain ⟨h1, h2, h3, h4, h5, h6, h7, h8, h9, h10⟩ := h
  have hv := h1 0 (by rw [hlen]; omega)
  exact ⟨by simpa [demoState] using hv, h2,
    by rw [h3]; rfl, by rw [h4]; rfl, by rw [h5]; rfl,
    by rw [h6]; rfl, by rw [h7]; rfl,
    by rw [h8]; rfl, by rw [h9]; rfl, by rw [h10]; rfl⟩

/-- C7: frame condition — every adapter leaves the wrapped library's
state unchanged (so no handle is created or destroyed by this layer)
and writes only to the caller-supplied output addresses passed as
arguments: every other memory address keeps its previous value. -/
theorem adapters_frame_condition (st : LibState) (m : Mem)
    (s c t compiler vid outb lp outv oute : Nat) :
    (spvc_rs_expose_set st m s outb lp).1 = st ∧
    (∀ x, x ≠ lp →
      (∀ i, i < (st.set_contents s).length → x ≠ outb + i) →
      (spvc_rs_expose_set st m s outb lp).2 x = m x) ∧
    spvc_rs_constant_is_scalar st m c = (st, m, st.constant_is_scalar c) ∧
    spvc_rs_constant_get_vecsize st m c =
      (st, m, st.constant_get_vecsize c) ∧
    spvc_rs_constant_get_matrix_colsize st m c =
      (st, m, st.constant_get_matrix_colsize c) ∧
    (spvc_rs_compiler_variable_get_type st m compiler vid outv).1 =
      st ∧
    (∀ x, x ≠ outv →
      (spvc_rs_compiler_variable_get_type st m compiler vid outv).2.1
        x = m x) ∧
    spvc_rs_type_is_pointer st m t = (st, m, st.type_is_pointer t) ∧
    spvc_rs_type_is_forward_pointer st m t =
      (st, m, st.type_is_forward_pointer t) ∧
    (spvc_rs_compiler_get_execution_model_indirect st m compiler
      oute).1 = st ∧
    (∀ x, x ≠ oute →
      (spvc_rs_compiler_get_execution_model_indirect st m compiler
        oute).2 x = m x) := by
  refine ⟨rfl, ?_, rfl, rfl, rfl, rfl, ?_, rfl, rfl, rfl, ?_⟩
  · intro x hlp hbuf
    simp only [spvc_rs_expose_set]
    rw [write_other _ _ _ _ hlp]
    rcases Nat.lt_or_ge x outb with hx | hx
    · exact writeList_eq_outside _ m outb x (Or.inl hx)
    · refine writeList_eq_outside _ m outb x (Or.inr ?_)
      by_contra hcon
      exact hbuf (x - outb) (by omega) (by omega)
  · intro x hx
    exact write_other _ _ _ _ hx
  · intro x hx
    exact write_other _ _ _ _ hx

/-- Witness for C7 at a concrete state: addresses away from every
output pointer keep their previous (zero) value, and the library state
comes back unchanged. -/
theorem adapters_frame_condition_witness :
    (spvc_rs_expose_set demoState zeroMem 7 10 20).1 = demoState ∧
    (spvc_rs_expose_set demoState zeroMem 7 10 20).2 99 = zeroMem 99 ∧
    (spvc_rs_compiler_variable_get_type demoState zeroMem 1 9 30).2.1
      99 = zeroMem 99 ∧
    (spvc_rs_compiler_get_execution_model_indirect demoState zeroMem 1
      40).2 99 = zeroMem 99 := by
  have hlen : (demoState.set_contents 7).length = 3 := rfl
  have h := adapters_frame_condition demoState zeroMem 7 2 5 1 9 10 20
    30 40
  obtain ⟨h1, h2, _, _, _, _, h7, _, _, _, h11⟩ := h
  exact ⟨h1,
    h2 99 (by omega) (by intro i hi; rw [hlen] at hi; omega),
    h7 99 (by omega), h11 99 (by omega)⟩

/-- C8: determinism / statelessness — an adapter's returned value and
the values it writes through its output pointers are a function of the
wrapped-library state and the handle arguments alone: two calls with
the same handles against the same library state produce identical
results and identical written values, whatever caller memory each call
starts from (the layer keeps no internal state between calls). -/
theorem adapters_deterministic (st : LibState) (m m' : Mem)
    (s c t compiler vid outb lp outv oute : Nat) :
    (∀ x, (x = lp ∨ ∃ i, i < (st.set_contents s).length ∧
        x = outb + i) →
      (spvc_rs_expose_set st m s outb lp).2 x =
        (spvc_rs_expose_set st m' s outb lp).2 x) ∧
    (spvc_rs_constant_is_scalar st m c).2.2 =
      (spvc_rs_constant_is_scalar st m' c).2.2 ∧
    (spvc_rs_constant_get_vecsize st m c).2.2 =
      (spvc_rs_constant_get_vecsize st m' c).2.2 ∧
    (spvc_rs_constant_get_matrix_colsize st m c).2.2 =
      (spvc_rs_constant_get_matrix_colsize st m' c).2.2 ∧
    (spvc_rs_compiler_variable_get_type st m compiler vid outv).2.2 =
      (spvc_rs_compiler_variable_get_type st m' compiler vid
        outv).2.2 ∧
    (spvc_rs_compiler_variable_get_type st m compiler vid outv).2.1
        outv =
      (spvc_rs_compiler_variable_get_type st m' compiler vid outv).2.1
        outv ∧
    (spvc_rs_type_is_pointer st m t).2.2 =
      (spvc_rs_type_is_pointer st m' t).2.2 ∧
    (spvc_rs_type_is_forward_pointer st m t).2.2 =
      (spvc_rs_type_is_forward_pointer st m' t).2.2 ∧
    (spvc_rs_compiler_get_execution_model_indirect st m compiler
        oute).2 oute =
      (spvc_rs_compiler_get_execution_model_indirect st m' compiler
        oute).2 oute := by
  refine ⟨?_, rfl, rfl, rfl, rfl, ?_, rfl, rfl, ?_⟩
  · intro x hx
    by_cases hcase : x = lp
    · subst hcase
      simp only [spvc_rs_expose_set]
      rw [write_self, write_self]
    · rcases hx with hx | ⟨i, hi, hx⟩
      · exact absurd hx hcase
      · subst hx
        simp only [spvc_rs_expose_set]
        rw [write_other _ _ _ _ hcase, write_other _ _ _ _ hcase]
        rw [writeList_get _ m outb i hi, writeList_get _ m' outb i hi]
  · simp only [spvc_rs_compiler_variable_get_type]
    rw [write_self, write_self]
  · simp only [spvc_rs_compiler_get_execution_model_indirect]
    rw [write_self, write_self]

/-- Witness for C8 at a concrete state, comparing a call from the
all-zero memory with a call from an all-ones memory. -/
theorem adapters_deterministic_witness :
    (spvc_rs_expose_set demoState zeroMem 7 10 20).2 20 =
      (spvc_rs_expose_set demoState (fun _ => 1) 7 10 20).2 20 ∧
    (spvc_rs_compiler_variable_get_type demoState zeroMem 1 9 30).2.1
        30 =
      (spvc_rs_compiler_variable_get_type demoState (fun _ => 1) 1 9
        30).2.1 30 := by
  have h := adapters_deterministic demoState zeroMem (fun _ => 1)
    7 2 5 1 9 10 20 30 40
  exact ⟨h.1 20 (Or.inl rfl), h.2.2.2.2.2.1⟩

/-- C9: `spvc_rs_expose_set` has no buffer-capacity parameter, so it
unconditionally writes one 32-bit value per element of the set into the
buffer at `out` (address `out + i` receives element `i`, for every
`i` below the set's cardinality), and all of those writes land inside a
caller-supplied buffer of capacity `cap` exactly when `cap` is at least
the set's cardinality — the unstated precondition of the call. -/
theorem expose_set_needs_capacity (st : LibState) (m : Mem)
    (s out lp cap : Nat)
    (hdisj : ∀ i, i < (st.set_contents s).length → out + i ≠ lp) :
    (∀ i, (h : i < (st.set_contents s).length) →
      (spvc_rs_expose_set st m s out lp).2 (out + i) =
        (st.set_contents s).get ⟨i, h⟩) ∧
    ((∀ i, i < (st.set_contents s).length → out + i < out + cap) ↔
      (st.set_contents s).length ≤ cap) := by
  constructor
  · intro i h
    simp only [spvc_rs_expose_set]
    rw [write_other _ _ _ _ (hdisj i h)]
    exact writeList_get _ m out i h
  · constructor
    · intro hall
      by_contra hcon
      have := hall cap (by omega)
      omega
    · intro hcap i hi
      omega

/-- Witness for C9 at a concrete state: set handle 7 has 3 elements, so
with capacity 3 every write lands in the buffer, and element 2 is
written at address 12. -/
theorem expose_set_needs_capacity_witness :
    (spvc_rs_expose_set demoState zeroMem 7 10 20).2 (10 + 2) = 4 ∧
    (∀ i, i < (demoState.set_contents 7).length → 10 + i < 10 + 3) := by
  have hlen : (demoState.set_contents 7).length = 3 := rfl
  have h := expose_set_needs_capacity demoState zeroMem 7 10 20 3
    (by intro i hi; rw [hlen] at hi; omega)
  refine ⟨?_, h.2.mpr (by rw [hlen])⟩
  have := h.1 2 (by rw [hlen]; omega)
  simpa [demoState] using this

/-- C10: `spvc_rs_compiler_get_execution_model_indirect` has no error
channel — its C return type is `void`, modelled as a result carrying no
value — so for every compiler handle and every starting memory it
writes the execution-model value through `out` unconditionally; it can
never report failure to the caller. -/
theorem get_execution_model_indirect_no_error_channel (st : LibState)
    (m : Mem) (compiler out : Nat) :
    (spvc_rs_compiler_get_execution_model_indirect st m compiler out).2
        out = st.get_execution_model compiler ∧
    spvc_rs_compiler_get_execution_model_indirect st m compiler out =
      (st, write m out (st.get_execution_model compiler)) :=
  ⟨write_self _ out _, rfl⟩

end SpvcRs
